import Mathlib

/-!
Shallow embedding of the diagnostic scripts of `match-prediction-rider`
(`examine_excel.py`, `examine_soccer.py`, `check_worksheets.py`) and proofs
about the behaviors the specification records: the "matches today"
day-of-month heuristic, the fixed column-to-field mapping, null-percentage
reporting, and script-level control flow (file fallback, sheet lookup,
exit codes).

Python strings are modelled as `List Char`; a spreadsheet cell holds either
`none` (an empty cell, openpyxl's `None`) or `some s` with `s` the `str()`
rendering of the cell's value.
-/

/-- Python string: a list of characters. -/
abbrev PyStr := List Char

/-- Python `s.split(sep)` for a one-character separator `sep`
(`"".split(sep) == [""]`, adjacent separators yield empty segments). -/
def pySplit (sep : Char) : PyStr → List PyStr
  | [] => [[]]
  | c :: cs =>
    if c = sep then [] :: pySplit sep cs
    else
      match pySplit sep cs with
      | [] => [[c]]
      | t :: ts => (c :: t) :: ts

/-- Indexing `[0]` into the result of a Python `split` (which is never empty). -/
def firstOf (l : List PyStr) : PyStr := l.headD []

/-- `date_str.split('.')[0].split(' ')[0]` from
`examine_excel.py:81` / `examine_soccer.py:68`. -/
def firstTok (s : PyStr) : PyStr := firstOf (pySplit ' ' (firstOf (pySplit '.' s)))

/-- Characters Python's `int(str)` strips from both ends of its argument. -/
def isPyWS (c : Char) : Bool :=
  c = ' ' || c = '\t' || c = '\n' || c = '\x0d' || c = '\x0b' || c = '\x0c'

/-- Strip leading and trailing whitespace, as Python `int()` does. -/
def pyStrip (s : PyStr) : PyStr :=
  ((s.dropWhile isPyWS).reverse.dropWhile isPyWS).reverse

/-- Value of a non-empty all-ASCII-digit string, `none` otherwise. -/
def digitsVal : PyStr → Option Nat
  | [] => none
  | [c] => if c.isDigit then some (c.toNat - '0'.toNat) else none
  | c :: cs =>
    if c.isDigit then
      (digitsVal cs).map (fun n => (c.toNat - '0'.toNat) * 10 ^ cs.length + n)
    else none

/-- Python `int(s)`: strip whitespace, optional single sign, decimal digits;
`none` models raising `ValueError`. -/
def pyInt (s : PyStr) : Option Int :=
  match pyStrip s with
  | '-' :: ds => (digitsVal ds).map (fun n => -(n : Int))
  | '+' :: ds => (digitsVal ds).map (fun n => (n : Int))
  | ds => (digitsVal ds).map (fun n => (n : Int))

/-- Python truthiness of a string (`if date_str:`): nonempty. -/
def pyTruthy (s : PyStr) : Bool := !s.isEmpty

/-- The day a date cell yields, `none` when the cell is skipped or the parse
fails: embeds the body of the row loop at `examine_excel.py:77-85` up to the
comparison (`if date_str: ... day = int(date_str.split('.')[0].split(' ')[0])`,
with any exception swallowed). -/
def cellDay (c : Option PyStr) : Option Int :=
  match c with
  | none => none
  | some s => if pyTruthy s then pyInt (firstTok s) else none

/-- Whether a date cell is counted as "today" for current day-of-month `d`
(`examine_excel.py:77-85`, `examine_soccer.py:64-72`). -/
def matchesToday (c : Option PyStr) (d : Int) : Bool :=
  match c with
  | none => false
  | some s =>
    if pyTruthy s then
      match pyInt (firstTok s) with
      | some day => day == d
      | none => false
    else false

/-- The `today_count` accumulation loop over a list of date cells. -/
def todayCount (cells : List (Option PyStr)) (d : Int) : Nat :=
  cells.foldl (fun acc c => if matchesToday c d then acc + 1 else acc) 0

-- ### Basic lemmas about the heuristic

theorem pySplit_ne_nil (sep : Char) (s : PyStr) : pySplit sep s ≠ [] := by
  cases s with
  | nil => simp [pySplit]
  | cons c cs =>
    simp only [pySplit]
    split
    · simp
    · split <;> simp_all

theorem firstOf_pySplit (sep : Char) (s : PyStr) :
    firstOf (pySplit sep s) = s.takeWhile (fun c => c ≠ sep) := by
  induction s with
  | nil => simp [pySplit, firstOf]
  | cons c cs ih =>
    simp only [pySplit, List.takeWhile]
    by_cases h : c = sep
    · simp [h, firstOf]
    · simp only [if_neg h]
      have hd : (decide (c ≠ sep)) = true := by simp [h]
      rw [hd]
      simp only [if_true]
      cases hsp : pySplit sep cs with
      | nil => exact absurd hsp (pySplit_ne_nil sep cs)
      | cons t ts =>
        simp only [firstOf, List.headD] at ih ⊢
        simp [hsp] at ih
        simp [ih]

theorem takeWhile_takeWhile_eq (p q : Char → Bool) (s : PyStr) :
    (s.takeWhile p).takeWhile q = s.takeWhile (fun c => p c && q c) := by
  induction s with
  | nil => rfl
  | cons c cs ih =>
    simp only [List.takeWhile]
    by_cases hp : p c
    · by_cases hq : q c
      · simp [hp, hq, List.takeWhile, ih]
      · simp [hp, hq, List.takeWhile]
    · simp [hp]

/-- The first token is the maximal prefix containing neither `.` nor a space:
the extraction "splits on `.` and on whitespace and takes the first token". -/
theorem firstTok_eq_takeWhile (s : PyStr) :
    firstTok s = s.takeWhile (fun c => c ≠ '.' && c ≠ ' ') := by
  simp only [firstTok, firstOf_pySplit, takeWhile_takeWhile_eq]

theorem matchesToday_eq_cellDay (c : Option PyStr) (d : Int) :
    matchesToday c d = (cellDay c == some d) := by
  cases c with
  | none => rfl
  | some s =>
    simp only [matchesToday, cellDay]
    by_cases h : pyTruthy s
    · simp only [if_pos h]
      cases pyInt (firstTok s) <;> simp
    · simp [h]

-- ### Worksheet model

/-- An openpyxl worksheet: populated extents plus cell contents.
`cell r c` is the `str()` rendering of `ws.cell(r, c).value`, or `none`
when the value is `None`. -/
structure Sheet where
  maxRow : Nat
  maxCol : Nat
  cell : Nat → Nat → Option PyStr

/-- The data-row indices `range(2, ws.max_row + 1)`. -/
def dataRows (ws : Sheet) : List Nat := List.range' 2 (ws.maxRow - 1)

/-- `today_count` computed over the worksheet's column-5 date cells
(`examine_excel.py:76-85`, `examine_soccer.py:63-72`). -/
def todayCountWS (ws : Sheet) (d : Int) : Nat :=
  todayCount ((dataRows ws).map (fun r => ws.cell r 5)) d

/-- Header cells read by `examine_excel.py:25-28`:
columns `range(1, min(ws.max_column + 1, 50))`. -/
def headersExcel (ws : Sheet) : List (Option PyStr) :=
  (List.range' 1 (min (ws.maxCol + 1) 50 - 1)).map (fun c => ws.cell 1 c)

/-- Header cells read by `examine_soccer.py:16-20`:
columns `range(1, ws.max_column + 1)`. -/
def headersSoccer (ws : Sheet) : List (Option PyStr) :=
  (List.range' 1 ws.maxCol).map (fun c => ws.cell 1 c)

-- ### Column-to-field mappings

/-- `column_mapping` of `examine_excel.py:44-57` (dict entries in source
order). -/
def excelColumnMapping : List (Nat × String) :=
  [(2, "HomeTeam"), (3, "AwayTeam"), (4, "League"), (5, "Date/Time"),
   (6, "HomeWin"), (7, "Draw"), (8, "AwayWin"),
   (18, "OverTwoGoals"), (22, "OverThreeGoals"), (24, "OverFourGoals"),
   (34, "UnderTwoGoals"), (38, "UnderThreeGoals")]

/-- `column_mapping` of `examine_soccer.py:25-38`. -/
def soccerColumnMapping : List (Nat × String) :=
  [(2, "HomeTeam"), (3, "AwayTeam"), (4, "League"), (5, "Date/Time"),
   (6, "HomeWin (1x2_h)"), (7, "Draw (1x2_d)"), (8, "AwayWin (1x2_a)"),
   (18, "OverTwoGoals (o_2.5)"), (22, "OverThreeGoals (o_3)"),
   (24, "OverFourGoals (o_4)"), (34, "UnderTwoGoals (u_2.5)"),
   (38, "UnderThreeGoals (u_3)")]

/-- The column indices a mapping covers. -/
def mappingKeys (m : List (Nat × String)) : List Nat := m.map Prod.fst

/-- Columns the reporting loop iterates over:
`sorted(column_mapping.items())` visits exactly the table's keys, in order
(`examine_excel.py:60`, `examine_soccer.py:40`). -/
def reportedColumns (m : List (Nat × String)) : List Nat :=
  (mappingKeys m).insertionSort (· ≤ ·)

/-- Modelled from the spec: the scripts contain no lookup of an index absent
from `column_mapping`; §4.1's contract for such a query ("given any other
index, the field is unmapped") has no code under `src/`, so the query is
modelled from the spec's words as a total lookup with default `"unmapped"`. -/
def fieldFor (m : List (Nat × String)) (i : Nat) : String :=
  (m.lookup i).getD "unmapped"

-- ### Null counting and percentages (examine_soccer.py:84-89)

/-- Python runtime errors the scripts can raise. -/
inductive PyErr where
  | keyError
  | zeroDivisionError
deriving DecidableEq

/-- `sum(1 for row in range(2, ws.max_row + 1) if ws.cell(row, col_num).value is None)`. -/
def nullCount (ws : Sheet) (col : Nat) : Nat :=
  (dataRows ws).countP (fun r => (ws.cell r col).isNone)

/-- Rounding to one decimal place, as the `:.1f` format does. -/
def round1 (q : ℚ) : ℚ := (round (q * 10) : ℤ) / 10

/-- The null percentage printed for one column: `null_count/(ws.max_row-1)*100`
formatted to one decimal; with `max_row = 1` the division raises
`ZeroDivisionError`. -/
def nullPctEntry (ws : Sheet) (col : Nat) : Except PyErr ℚ :=
  if ws.maxRow = 1 then .error .zeroDivisionError
  else .ok (round1 ((nullCount ws col : ℚ) / ((ws.maxRow : ℚ) - 1) * 100))

-- ### Script-level control flow

/-- What a run of `examine_excel` reports (counts and headers; console
formatting is out of scope). -/
structure Report where
  headers : List (Option PyStr)
  totalRows : Nat
  todayCnt : Nat
deriving DecidableEq

/-- The report `examine_excel(file_path)` produces for current day `d`
(`examine_excel.py:9-88`). -/
def examineReport (ws : Sheet) (d : Int) : Report :=
  { headers := headersExcel ws
    totalRows := ws.maxRow - 1
    todayCnt := todayCountWS ws d }

/-- The candidate workbook locations tried by `examine_excel.py:90-106`. -/
inductive PPath where
  | primary
  | altWeb
  | altRel
deriving DecidableEq

/-- Observable outcome of the `__main__` block. -/
structure MainOutcome where
  exitCode : Nat
  ranExamine : Bool
  printedDiagnostic : Bool
deriving DecidableEq

/-- The `__main__` block of `examine_excel.py:90-114`: try the primary path,
then the fallbacks, exiting 1 when none exists; otherwise run `examine_excel`,
exiting 1 with a diagnostic when it raises and 0 when it returns.
`fs p` says whether a file exists at `p`; `parseOk` whether
`examine_excel` succeeds on the found file. -/
def mainExcel (fs : PPath → Bool) (parseOk : Bool) : MainOutcome :=
  if fs .primary then
    { exitCode := if parseOk then 0 else 1
      ranExamine := true
      printedDiagnostic := !parseOk }
  else if fs .altWeb then
    { exitCode := if parseOk then 0 else 1
      ranExamine := true
      printedDiagnostic := true }
  else if fs .altRel then
    { exitCode := if parseOk then 0 else 1
      ranExamine := true
      printedDiagnostic := true }
  else
    { exitCode := 1, ranExamine := false, printedDiagnostic := true }

/-- A workbook: its sheets by name, in order (`wb["soccer"]` is a lookup by
title that raises `KeyError` when no sheet has that title). -/
abbrev Workbook := List (String × Sheet)

/-- What a full run of `examine_soccer.py` reports. -/
structure SoccerReport where
  headers : List (Option PyStr)
  totalMatches : Nat
  todayCnt : Nat
  nullPcts : List (Nat × ℚ)
deriving DecidableEq

/-- `examine_soccer.py` top to bottom: look up the sheet named `"soccer"`
(raising `KeyError` when absent), report headers and counts, then the
data-quality loop whose percentage expression raises `ZeroDivisionError`
when `max_row - 1 == 0`. An uncaught exception aborts the script
(the process exits nonzero). -/
def soccerScriptResult (wb : Workbook) (d : Int) : Except PyErr SoccerReport :=
  match wb.lookup "soccer" with
  | none => .error .keyError
  | some ws =>
    if ws.maxRow = 1 then .error .zeroDivisionError
    else
      .ok { headers := headersSoccer ws
            totalMatches := ws.maxRow - 1
            todayCnt := todayCountWS ws d
            nullPcts := [6, 7, 8, 18, 22, 34].map (fun c =>
              (c, round1 ((nullCount ws c : ℚ) / ((ws.maxRow : ℚ) - 1) * 100))) }

/-- Exit code of a script run: 0 on normal return, 1 on an uncaught
exception. -/
def scriptExitCode {α : Type} (r : Except PyErr α) : Nat :=
  match r with
  | .ok _ => 0
  | .error _ => 1

-- ### Helper lemmas for the mapping claims

theorem lookup_eq_none_of_not_mem (l : List (Nat × String)) (i : Nat)
    (h : i ∉ l.map Prod.fst) : l.lookup i = none := by
  induction l with
  | nil => rfl
  | cons a l ih =>
    simp only [List.map_cons, List.mem_cons, not_or] at h
    have hb : (i == a.fst) = false := by simpa using h.1
    cases a with
    | mk k v => simp only [List.lookup] at *; rw [hb]; exact ih h.2

/-- The field names §4.1's table documents for each column index, transcribed
from the spec's data model (spec-side definition, used to state C3). -/
def documentedFieldName (i : Nat) : String :=
  if i = 2 then "HomeTeam" else if i = 3 then "AwayTeam"
  else if i = 4 then "League" else if i = 5 then "Date/Time"
  else if i = 6 then "HomeWin" else if i = 7 then "Draw"
  else if i = 8 then "AwayWin" else if i = 18 then "OverTwoGoals"
  else if i = 22 then "OverThreeGoals" else if i = 24 then "OverFourGoals"
  else if i = 34 then "UnderTwoGoals" else if i = 38 then "UnderThreeGoals"
  else "unmapped"

-- ### Claim theorems

/-- C1: the "matches today" classification counts a date cell exactly when the
maximal leading token of the string before any `.` or space parses as an
integer equal to the caller's current day-of-month; `"5.03"` with current day 5
is counted, `"15.03"` with current day 5 is not, and `""` and `"abc"` are not
counted (the failed parse raises nothing: `matchesToday` is total). -/
theorem c1_today_heuristic :
    (∀ (s : PyStr) (d : Int),
        matchesToday (some s) d = true ↔
          pyInt (s.takeWhile (fun c => c ≠ '.' && c ≠ ' ')) = some d)
    ∧ matchesToday (some "5.03".toList) 5 = true
    ∧ matchesToday (some "15.03".toList) 5 = false
    ∧ matchesToday (some "".toList) 5 = false
    ∧ matchesToday (some "abc".toList) 5 = false := by
  refine ⟨?_, by decide, by decide, by decide, by decide⟩
  intro s d
  rw [← firstTok_eq_takeWhile]
  by_cases h : pyTruthy s
  · simp only [matchesToday, if_pos h]
    cases hp : pyInt (firstTok s) with
    | none => simp
    | some k => simp
  · have hs : s = [] := by
      cases s with
      | nil => rfl
      | cons a as => simp [pyTruthy] at h
    subst hs
    have hn : pyInt (firstTok ([] : PyStr)) = none := rfl
    simp [matchesToday, pyTruthy, hn]

/-- C2: both scripts' `column_mapping` tables send columns 2, 3, 4, 5 to the
home team, away team, league, and kickoff date/time fields; 6, 7, 8 to the
home-win, draw, and away-win probabilities; and 18, 22, 24, 34, 38 to the
over-2.5, over-3, over-4, under-2.5, and under-3 goal-threshold probabilities
(the soccer script's names carry the thresholds o_2.5, o_3, o_4, u_2.5, u_3). -/
theorem c2_column_mapping :
    (excelColumnMapping.lookup 2 = some "HomeTeam"
     ∧ excelColumnMapping.lookup 3 = some "AwayTeam"
     ∧ excelColumnMapping.lookup 4 = some "League"
     ∧ excelColumnMapping.lookup 5 = some "Date/Time"
     ∧ excelColumnMapping.lookup 6 = some "HomeWin"
     ∧ excelColumnMapping.lookup 7 = some "Draw"
     ∧ excelColumnMapping.lookup 8 = some "AwayWin"
     ∧ excelColumnMapping.lookup 18 = some "OverTwoGoals"
     ∧ excelColumnMapping.lookup 22 = some "OverThreeGoals"
     ∧ excelColumnMapping.lookup 24 = some "OverFourGoals"
     ∧ excelColumnMapping.lookup 34 = some "UnderTwoGoals"
     ∧ excelColumnMapping.lookup 38 = some "UnderThreeGoals")
    ∧ (soccerColumnMapping.lookup 2 = some "HomeTeam"
     ∧ soccerColumnMapping.lookup 3 = some "AwayTeam"
     ∧ soccerColumnMapping.lookup 4 = some "League"
     ∧ soccerColumnMapping.lookup 5 = some "Date/Time"
     ∧ soccerColumnMapping.lookup 6 = some "HomeWin (1x2_h)"
     ∧ soccerColumnMapping.lookup 7 = some "Draw (1x2_d)"
     ∧ soccerColumnMapping.lookup 8 = some "AwayWin (1x2_a)"
     ∧ soccerColumnMapping.lookup 18 = some "OverTwoGoals (o_2.5)"
     ∧ soccerColumnMapping.lookup 22 = some "OverThreeGoals (o_3)"
     ∧ soccerColumnMapping.lookup 24 = some "OverFourGoals (o_4)"
     ∧ soccerColumnMapping.lookup 34 = some "UnderTwoGoals (u_2.5)"
     ∧ soccerColumnMapping.lookup 38 = some "UnderThreeGoals (u_3)") := by
  decide

/-- C3: querying the fixed mapping at an index present in the table returns
the documented field name; at any other index the query yields `"unmapped"`
(and such an index is never visited by the reporting loop); the query is a
total function, so no exception is possible. -/
theorem c3_mapping_query (i : Nat) :
    (i ∈ mappingKeys excelColumnMapping →
        fieldFor excelColumnMapping i = documentedFieldName i)
    ∧ (i ∉ mappingKeys excelColumnMapping →
        fieldFor excelColumnMapping i = "unmapped"
        ∧ i ∉ reportedColumns excelColumnMapping) := by
  constructor
  · intro h
    have h' : i ∈ ([2, 3, 4, 5, 6, 7, 8, 18, 22, 24, 34, 38] : List Nat) := by
      simpa [mappingKeys, excelColumnMapping] using h
    fin_cases h' <;> decide
  · intro h
    have hl : excelColumnMapping.lookup i = none :=
      lookup_eq_none_of_not_mem _ _ h
    refine ⟨by simp [fieldFor, hl], ?_⟩
    intro hmem
    exact h ((List.perm_insertionSort (· ≤ ·) (mappingKeys excelColumnMapping)).mem_iff.mp hmem)

theorem c3_mapping_query_witness :
    (fieldFor excelColumnMapping 2 = documentedFieldName 2)
    ∧ (fieldFor excelColumnMapping 9 = "unmapped"
       ∧ 9 ∉ reportedColumns excelColumnMapping) :=
  ⟨(c3_mapping_query 2).1 (by decide), (c3_mapping_query 9).2 (by decide)⟩

/-- C4: a date cell whose day extraction fails (null cell, empty string, or a
leading token `int()` rejects) is never counted: `matchesToday` is false on it
and prepending it to any list of cells leaves the today count unchanged; both
functions are total, so the failure never escalates. -/
theorem c4_parse_failure_excluded (c : Option PyStr) (h : cellDay c = none) :
    ∀ (cells : List (Option PyStr)) (d : Int),
      matchesToday c d = false
      ∧ todayCount (c :: cells) d = todayCount cells d := by
  intro cells d
  have hm : matchesToday c d = false := by
    rw [matchesToday_eq_cellDay, h]; rfl
  exact ⟨hm, by simp [todayCount, List.foldl_cons, hm]⟩

theorem c4_parse_failure_excluded_witness :
    cellDay (some "abc".toList) = none
    ∧ (matchesToday (some "abc".toList) 5 = false
       ∧ todayCount [some "abc".toList, some "5.03".toList] 5 =
           todayCount [some "5.03".toList] 5) :=
  ⟨by decide,
   c4_parse_failure_excluded (some "abc".toList) (by decide) [some "5.03".toList] 5⟩

/-- C8: the heuristic compares only the extracted day-of-month: two date
strings whose leading tokens parse to the same integer day are classified
identically for every current day, regardless of month, year, or trailing
text. -/
theorem c8_day_only (s1 s2 : PyStr) (d cd : Int)
    (h1 : cellDay (some s1) = some d) (h2 : cellDay (some s2) = some d) :
    matchesToday (some s1) cd = matchesToday (some s2) cd := by
  rw [matchesToday_eq_cellDay, matchesToday_eq_cellDay, h1, h2]

theorem c8_day_only_witness :
    cellDay (some "14.03".toList) = some 14
    ∧ cellDay (some "14.11 18:30".toList) = some 14
    ∧ matchesToday (some "14.03".toList) 14 =
        matchesToday (some "14.11 18:30".toList) 14 :=
  ⟨by decide, by decide, c8_day_only _ _ 14 14 (by decide) (by decide)⟩

-- ### Null-percentage claim (C5)

/-- Spec-side count of the data rows (rows 2 through `max_row`) whose cell in
the given column is absent. -/
def specAbsent (ws : Sheet) (col : Nat) : Nat :=
  ((Finset.Icc 2 ws.maxRow).filter (fun r => ws.cell r col = none)).card

theorem nullCount_eq_specAbsent (ws : Sheet) (col : Nat) :
    nullCount ws col = specAbsent ws col := by
  have h2 : ws.maxRow + 1 - 2 = ws.maxRow - 1 := by omega
  have hp : (fun r => (ws.cell r col).isNone) =
      (fun r => decide (ws.cell r col = none)) := by
    funext r
    cases ws.cell r col <;> simp
  rw [specAbsent, Nat.Icc_eq_range']
  simp only [Finset.card, Finset.filter_val, Multiset.filter_coe,
    Multiset.coe_card, h2]
  rw [nullCount, List.countP_eq_length_filter, hp]
  rfl

/-- C5: with at least one data row, the data rows 2..`max_row` number
`max_row - 1`, and the reported null percentage for a column is
`N / M * 100` rounded to one decimal place, where `N` counts exactly the data
rows whose cell in that column is absent and `M = max_row - 1`. -/
theorem c5_null_percentage (ws : Sheet) (col : Nat) (h : 2 ≤ ws.maxRow) :
    (Finset.Icc 2 ws.maxRow).card = ws.maxRow - 1
    ∧ nullPctEntry ws col =
        .ok (round1 ((specAbsent ws col : ℚ) / ((ws.maxRow - 1 : ℕ) : ℚ) * 100)) := by
  constructor
  · rw [Nat.card_Icc]; omega
  · have hne : ws.maxRow ≠ 1 := by omega
    have hcast : ((ws.maxRow - 1 : ℕ) : ℚ) = (ws.maxRow : ℚ) - 1 := by
      rw [Nat.cast_sub (by omega : 1 ≤ ws.maxRow)]
      norm_num
    rw [nullPctEntry, if_neg hne, nullCount_eq_specAbsent, hcast]

/-- Worksheet with three rows (two data rows), column 6 absent in row 2. -/
def wsNullDemo : Sheet :=
  { maxRow := 3, maxCol := 40
    cell := fun r c => if r == 2 && c == 6 then none else some ['x'] }

theorem c5_null_percentage_witness :
    (Finset.Icc 2 wsNullDemo.maxRow).card = wsNullDemo.maxRow - 1
    ∧ nullPctEntry wsNullDemo 6 =
        .ok (round1 ((specAbsent wsNullDemo 6 : ℚ) /
          ((wsNullDemo.maxRow - 1 : ℕ) : ℚ) * 100)) :=
  c5_null_percentage wsNullDemo 6 (by decide)

-- ### Exit-code claim (C6)

/-- C6: when the workbook is absent from the primary path and both fallback
paths, `__main__` prints a diagnostic and exits 1 without running the
inspection; when some path holds the file and the workbook parses, the
inspection runs and the process exits 0. -/
theorem c6_exit_codes (fs : PPath → Bool) (parseOk : Bool) :
    ((∀ p, fs p = false) →
        mainExcel fs parseOk =
          { exitCode := 1, ranExamine := false, printedDiagnostic := true })
    ∧ ((∃ p, fs p = true) → parseOk = true →
        (mainExcel fs parseOk).exitCode = 0
        ∧ (mainExcel fs parseOk).ranExamine = true) := by
  constructor
  · intro h
    simp [mainExcel, h PPath.primary, h PPath.altWeb, h PPath.altRel]
  · rintro ⟨p, hp⟩ hpk
    subst hpk
    by_cases h1 : fs PPath.primary
    · simp [mainExcel, h1]
    · by_cases h2 : fs PPath.altWeb
      · simp [mainExcel, h1, h2]
      · by_cases h3 : fs PPath.altRel
        · simp [mainExcel, h1, h2, h3]
        · cases p with
          | primary => exact absurd hp h1
          | altWeb => exact absurd hp h2
          | altRel => exact absurd hp h3

theorem c6_exit_codes_witness :
    mainExcel (fun _ => false) true =
      { exitCode := 1, ranExamine := false, printedDiagnostic := true }
    ∧ ((mainExcel (fun _ => true) true).exitCode = 0
       ∧ (mainExcel (fun _ => true) true).ranExamine = true) :=
  ⟨(c6_exit_codes (fun _ => false) true).1 (fun _ => rfl),
   (c6_exit_codes (fun _ => true) true).2 ⟨PPath.primary, rfl⟩ rfl⟩

-- ### Idempotence claim (C7)

/-- A two-row worksheet whose single data row carries date cell `"5.03"`. -/
def wsToday : Sheet :=
  { maxRow := 2, maxCol := 1
    cell := fun r c => if r == 2 && c == 5 then some "5.03".toList else some ['h'] }

/-- C7 is false as stated: the reported counts are not a function of the
workbook file alone. Two runs against the unchanged workbook `wsToday`, one
while the current day-of-month is 5 and one while it is 6, report different
"matches for today" counts. -/
theorem c7_not_idempotent :
    examineReport wsToday 5 ≠ examineReport wsToday 6 := by decide

/-- C7 (amended): two runs of the inspection against an unchanged workbook
(same extents, same cell contents) report identical headers and counts
provided the current local day-of-month is the same at both runs. -/
theorem c7_idempotent_same_day (ws1 ws2 : Sheet) (d : Int)
    (hr : ws1.maxRow = ws2.maxRow) (hc : ws1.maxCol = ws2.maxCol)
    (hcell : ∀ r c, ws1.cell r c = ws2.cell r c) :
    examineReport ws1 d = examineReport ws2 d := by
  have hws : ws1 = ws2 := by
    obtain ⟨a, b, f⟩ := ws1
    obtain ⟨a', b', f'⟩ := ws2
    obtain rfl : a = a' := hr
    obtain rfl : b = b' := hc
    obtain rfl : f = f' := funext fun r => funext fun c => hcell r c
    rfl
  rw [hws]

theorem c7_idempotent_same_day_witness :
    examineReport wsToday 5 = examineReport wsToday 5 :=
  c7_idempotent_same_day wsToday wsToday 5 rfl rfl (fun _ _ => rfl)

-- ### Soccer-sheet claims (C9, C10)

theorem lookup_eq_none_of_not_mem_wb (l : Workbook) (k : String)
    (h : k ∉ l.map Prod.fst) : l.lookup k = none := by
  induction l with
  | nil => rfl
  | cons a l ih =>
    simp only [List.map_cons, List.mem_cons, not_or] at h
    have hb : (k == a.fst) = false := by simpa using h.1
    cases a with
    | mk key ws => simp only [List.lookup] at *; rw [hb]; exact ih h.2

/-- C9: a workbook with no sheet titled `"soccer"` makes `examine_soccer.py`
raise `KeyError` before any report is produced, and the process terminates
with a nonzero exit code. -/
theorem c9_soccer_sheet_required (wb : Workbook) (d : Int)
    (h : ∀ name ∈ wb.map Prod.fst, name ≠ "soccer") :
    soccerScriptResult wb d = .error .keyError
    ∧ scriptExitCode (soccerScriptResult wb d) ≠ 0 := by
  have hl : wb.lookup "soccer" = none :=
    lookup_eq_none_of_not_mem_wb wb "soccer" (fun hmem => h _ hmem rfl)
  rw [soccerScriptResult, hl]
  exact ⟨rfl, by simp [scriptExitCode]⟩

/-- A worksheet holding only a header row. -/
def wsHeaderOnly : Sheet :=
  { maxRow := 1, maxCol := 3, cell := fun _ _ => some ['h'] }

theorem c9_soccer_sheet_required_witness :
    soccerScriptResult [("basketball", wsHeaderOnly)] 5 = .error .keyError
    ∧ scriptExitCode (soccerScriptResult [("basketball", wsHeaderOnly)] 5) ≠ 0 :=
  c9_soccer_sheet_required [("basketball", wsHeaderOnly)] 5 (by decide)

/-- C10: the null-percentage computation divides by `max_row - 1`: with at
least one data row (`max_row ≥ 2`) the whole soccer script returns a report,
but on a sheet holding only the header row (`max_row = 1`) the percentage
expression raises `ZeroDivisionError` and the script aborts nonzero. -/
theorem c10_null_pct_division (wb : Workbook) (ws : Sheet) (d : Int)
    (h : wb.lookup "soccer" = some ws) :
    (2 ≤ ws.maxRow → ∃ rep, soccerScriptResult wb d = .ok rep)
    ∧ (ws.maxRow = 1 →
        nullPctEntry ws 6 = .error .zeroDivisionError
        ∧ soccerScriptResult wb d = .error .zeroDivisionError
        ∧ scriptExitCode (soccerScriptResult wb d) ≠ 0) := by
  constructor
  · intro h2
    have hne : ws.maxRow ≠ 1 := by omega
    rw [soccerScriptResult, h]
    simp only [if_neg hne]
    exact ⟨_, rfl⟩
  · intro h1
    refine ⟨by rw [nullPctEntry, if_pos h1], ?_, ?_⟩
    · rw [soccerScriptResult, h]
      simp only [if_pos h1]
    · rw [soccerScriptResult, h]
      simp [if_pos h1, scriptExitCode]

/-- A worksheet with two data rows, every cell populated. -/
def wsTwoData : Sheet :=
  { maxRow := 3, maxCol := 40, cell := fun _ _ => some ['x'] }

theorem c10_null_pct_division_witness :
    (∃ rep, soccerScriptResult [("soccer", wsTwoData)] 0 = .ok rep)
    ∧ soccerScriptResult [("soccer", wsHeaderOnly)] 0 = .error .zeroDivisionError :=
  ⟨(c10_null_pct_division [("soccer", wsTwoData)] wsTwoData 0 rfl).1 (by decide),
   ((c10_null_pct_division [("soccer", wsHeaderOnly)] wsHeaderOnly 0 rfl).2 rfl).2.1⟩
